import Mathlib

/-!
Verification development for the `product_connections_manager.edr_printer`
package: a shallow embedding in Lean 4 of the authentication sequencer,
report fetcher, HTML/PDF renderers, batch drivers and print dispatch found in
`edr_report_generator.py`, `automated_edr_printer.py` and
`enhanced_edr_printer.py`, together with theorems settling the specification
claims about them.

Modelling conventions:
* Python dictionaries coming from the JSON API are modelled as structures with
  `Option String` fields; `d.get(k, default)` becomes `Option.getD`.
* Machine interaction (HTTP responses, cookie contents, subprocess results,
  the wall clock) is supplied through explicit environment structures, so every
  function is pure and executable.
* Python exceptions are modelled with `Except`; a caught exception follows the
  source's handler.
-/

set_option maxRecDepth 100000

namespace EdrPrinter

/-- An entry of `itemDetails` in the JSON payload of the event-detail
endpoint.  Field names follow the API: `itemNbr`, `gtin`, `itemDesc`,
`vendorNbr`, `deptNbr`; an `Option` value `none` models an absent key. -/
structure ItemRecord where
  itemNbr : Option String
  gtin : Option String
  itemDesc : Option String
  vendorNbr : Option String
  deptNbr : Option String
  deriving Repr, DecidableEq

/-- The `demoInstructions` sub-object of the event payload. -/
structure DemoInstructions where
  demoPrepnTxt : Option String
  demoPortnTxt : Option String
  deriving Repr, DecidableEq

/-- An EventRecord: the JSON payload returned by the event-detail endpoint,
as consumed by `generate_html_report` and
`generate_consolidated_pdf_reportlab`.  `none` models an absent key (the
renderers substitute the sentinel "N/A" via `.get(key, 'N/A')`). -/
structure EdrData where
  demoId : Option String
  demoClassCode : Option String
  demoStatusCode : Option String
  demoDate : Option String
  demoName : Option String
  demoLockInd : Option String
  demoInstructions : Option DemoInstructions
  itemDetails : List ItemRecord
  deriving Repr, DecidableEq

/-- `datetime.datetime.now()` as the renderers use it: only the two
`strftime` projections `%Y-%m-%d` and `%H:%M:%S` are ever read, so the clock
is modelled by those two strings. -/
structure Clock where
  dateStr : String
  timeStr : String
  deriving Repr, DecidableEq

/-- `dict.get(k, None)` on a Python dict literal, modelled as ordered
association-list lookup. -/
def pyDictGet (t : List (String × String)) (k : String) : Option String :=
  (t.find? (fun p => p.1 == k)).map (·.2)

/-- `str.upper()` restricted to ASCII (all codes handled by the printer are
ASCII); `Char.toUpper` maps exactly the range a-z. -/
def pyUpper (s : String) : String := String.mk (s.data.map Char.toUpper)

/-- `EnhancedEDRPrinter.event_type_codes` (enhanced_edr_printer.py lines
47-79), in source order. -/
def event_type_codes : List (String × String) :=
  [("1", "Sampling"),
   ("2", "Demo/Sampling"),
   ("3", "Cooking Demo"),
   ("4", "Product Demo"),
   ("5", "Educational"),
   ("6", "Seasonal"),
   ("7", "Holiday"),
   ("8", "Back to School"),
   ("9", "Health & Wellness"),
   ("10", "New Product Launch"),
   ("45", "Food Demo/Sampling"),
   ("46", "Beverage Demo"),
   ("47", "Product Demonstration"),
   ("48", "Special Event"),
   ("49", "Promotional Event"),
   ("50", "Tasting Event"),
   ("DEMO", "Demonstration"),
   ("SAMP", "Sampling"),
   ("COOK", "Cooking Demo"),
   ("SPEC", "Special Event"),
   ("PROM", "Promotion"),
   ("DISP", "Display"),
   ("TAST", "Tasting"),
   ("EDUC", "Educational"),
   ("SEAS", "Seasonal"),
   ("NEW", "New Product"),
   ("HOLI", "Holiday"),
   ("BACK", "Back to School"),
   ("GRIL", "Grilling"),
   ("HEAL", "Health & Wellness")]

/-- `EnhancedEDRPrinter.event_status_codes` (enhanced_edr_printer.py lines
82-108), in source order. -/
def event_status_codes : List (String × String) :=
  [("1", "Pending"),
   ("2", "Active/Scheduled"),
   ("3", "In Progress"),
   ("4", "Completed"),
   ("5", "Cancelled"),
   ("6", "On Hold"),
   ("7", "Under Review"),
   ("8", "Approved"),
   ("9", "Rejected"),
   ("10", "Suspended"),
   ("ACTV", "Active"),
   ("COMP", "Completed"),
   ("CANC", "Cancelled"),
   ("PEND", "Pending"),
   ("HOLD", "On Hold"),
   ("PREP", "In Preparation"),
   ("SCHED", "Scheduled"),
   ("INPR", "In Progress"),
   ("SUSP", "Suspended"),
   ("CLOS", "Closed"),
   ("APPR", "Approved"),
   ("REJE", "Rejected"),
   ("SUBM", "Submitted"),
   ("REVI", "Under Review")]

/-- `EnhancedEDRPrinter.get_event_type_description` (lines 110-119):
falsy or "N/A" input returns "N/A"; otherwise the uppercased code is looked
up in `event_type_codes`; a truthy hit is returned, anything else falls back
to `"Event Type " + code` with the original code. -/
def get_event_type_description (code : String) : String :=
  if code = "" ∨ code = "N/A" then "N/A"
  else
    match pyDictGet event_type_codes (pyUpper code) with
    | some d => if d = "" then "Event Type " ++ code else d
    | none => "Event Type " ++ code

/-- `EnhancedEDRPrinter.get_event_status_description` (lines 121-130). -/
def get_event_status_description (code : String) : String :=
  if code = "" ∨ code = "N/A" then "N/A"
  else
    match pyDictGet event_status_codes (pyUpper code) with
    | some d => if d = "" then "Status " ++ code else d
    | none => "Status " ++ code

/-- A Python exception, as far as the embedded flows can observe one. -/
inductive PyExc where
  | valueError (msg : String)
  | jsonDecodeError
  | typeError
  deriving Repr, DecidableEq

/-- What `EDRReportGenerator.get_edr_report` hands back on its non-raising
paths: `{}` (after a caught `RequestException`) or the parsed payload. -/
inductive FetchResult where
  | empty
  | payload (d : EdrData)
  deriving Repr, DecidableEq

/-- Behaviour of the single GET to the `edrReport` endpoint:
the request/raise_for_status raises `RequestException`; or the 2xx body is
not JSON (`response.json()` raises, uncaught by the handler, which only
catches `RequestException`); or it parses to an EventRecord. -/
inductive NetBehavior where
  | requestError
  | badJson
  | ok (d : EdrData)
  deriving Repr, DecidableEq

/-- `EDRReportGenerator.get_edr_report` (edr_report_generator.py lines
408-434).  Result paired with the number of network calls issued.  The guard
`if not self.auth_token` treats both `None` and the empty string as absent,
and raises `ValueError` before any request is built. -/
def get_edr_report (auth_token : Option String) (net : NetBehavior) :
    Except PyExc FetchResult × Nat :=
  if auth_token.getD "" = "" then
    (Except.error (PyExc.valueError "Must authenticate first before getting EDR report"), 0)
  else
    match net with
    | .requestError => (Except.ok .empty, 1)
    | .badJson => (Except.error .jsonDecodeError, 1)
    | .ok d => (Except.ok (.payload d), 1)

/-- The JSON object inside the `auth-token` cookie: `{"token": ...}`;
`token` is `none` when the field is missing. -/
structure TokenJson where
  token : Option String
  deriving Repr, DecidableEq

/-- A cookie in the shared session jar.  `parsed` is the outcome of
`json.loads(urllib.parse.unquote(value))`: `none` when that raises
`JSONDecodeError`. -/
structure Cookie where
  name : String
  value : String
  parsed : Option TokenJson
  deriving Repr, DecidableEq

/-- Environment of step 6: whether `session.get` raises `RequestException`,
the HTTP status, whether `response.json()` succeeds, and the cookie jar. -/
structure Step6Env where
  netError : Bool
  status : Nat
  bodyJson : Bool
  cookies : List Cookie
  deriving Repr, DecidableEq

/-- The cookie scan of step 6 (edr_report_generator.py lines 284-294): the
first cookie named `auth-token` with a truthy value whose payload parses
wins; a parse failure only logs and continues the loop. -/
def extractToken : List Cookie → Option TokenJson
  | [] => none
  | c :: rest =>
    if c.name == "auth-token" && c.value != "" then
      match c.parsed with
      | some td => some td
      | none => extractToken rest
    else extractToken rest

/-- `EDRReportGenerator.step6_authenticate_event_management` (lines 270-307).
Returns `(return value, auth_token afterwards)`; `tok0` is the token before
the call.  Source behaviours embedded faithfully:
* a caught `RequestException` or non-200 status returns `False`;
* a 200 response whose body is not JSON returns `True` with NO token
  extraction ("Authentication response not JSON but status OK");
* a parsable `auth-token` cookie whose object lacks the `token` field sets
  `auth_token = None` and then raises `TypeError` at `self.auth_token[:50]`
  (uncaught: the inner handler only catches `JSONDecodeError`);
* otherwise the extracted `token` value is stored and `True` returned;
* no usable cookie returns `False`. -/
def step6_authenticate_event_management (tok0 : Option String) (env : Step6Env) :
    Except PyExc (Bool × Option String) :=
  if env.netError then .ok (false, tok0)
  else if env.status ≠ 200 then .ok (false, tok0)
  else if env.bodyJson then
    match extractToken env.cookies with
    | some td =>
      match td.token with
      | some s => .ok (true, some s)
      | none => .error .typeError
    | none => .ok (false, tok0)
  else .ok (true, tok0)

/-- Environment of the six-step flow: outcomes of steps 1-5 plus the step-6
environment.  Steps 4 and 5 are best-effort in `authenticate` (their failure
only logs), so their fields do not influence the result. -/
structure AuthEnv where
  step1 : Bool
  step2 : Bool
  step3 : Bool
  step4 : Bool
  step5 : Bool
  s6 : Step6Env
  deriving Repr, DecidableEq

/-- `EDRReportGenerator.authenticate` (lines 309-343): steps 1-3 hard-fail,
steps 4-5 are advisory, step 6 decides the overall result; the token starts
as `None` for a fresh generator. -/
def authenticate (env : AuthEnv) : Except PyExc (Bool × Option String) :=
  if ¬env.step1 then .ok (false, none)
  else if ¬env.step2 then .ok (false, none)
  else if ¬env.step3 then .ok (false, none)
  else step6_authenticate_event_management none env.s6

/-- Per-identifier outcome of the body of the batch loop: the workflow
returned `True`, returned `False`, or raised (message recorded by the
`except Exception` handler). -/
inductive EventOutcome where
  | ok
  | fail
  | exc (msg : String)
  deriving Repr, DecidableEq

/-- The per-event result record built by
`AutomatedEDRPrinter.process_event_list` (automated_edr_printer.py lines
96-150). -/
structure EventResult where
  success : Bool
  generated : Bool
  printed : Bool
  saved : Bool
  error : Option String
  deriving Repr, DecidableEq

/-- Result record of the `print_reports=True` branch (lines 97-109): every
status flag mirrors the boolean returned by
`generate_and_print_edr_report`; a raised exception records its message. -/
def mkPrintResult (save_copies : Bool) : EventOutcome → EventResult
  | .ok => ⟨true, true, true, save_copies, none⟩
  | .fail => ⟨false, false, false, false, none⟩
  | .exc m => ⟨false, false, false, false, some m⟩

/-- Result record of the `print_reports=False` branch (lines 110-140):
generate-and-save only; empty report data records a fixed error string. -/
def mkSaveOnlyResult (save_copies : Bool) : EventOutcome → EventResult
  | .ok => ⟨true, true, false, save_copies, none⟩
  | .fail => ⟨false, false, false, false, some "Failed to retrieve EDR data"⟩
  | .exc m => ⟨false, false, false, false, some m⟩

/-- Dispatch between the two loop-body branches of `process_event_list`. -/
def resultFor (save_copies print_reports : Bool) (o : EventOutcome) : EventResult :=
  if print_reports then mkPrintResult save_copies o else mkSaveOnlyResult save_copies o

/-- Assignment `results[event_id] = ...` on a Python dict, modelled as an
insertion-ordered association list: an existing key keeps its position but
takes the new value; a new key is appended. -/
def dictInsert (m : List (String × EventResult)) (k : String) (v : EventResult) :
    List (String × EventResult) :=
  if m.any (fun p => p.1 == k) then
    m.map (fun p => if p.1 == k then (k, v) else p)
  else m ++ [(k, v)]

/-- `AutomatedEDRPrinter.DEFAULT_EVENT_IDS` (lines 31-34). -/
def DEFAULT_EVENT_IDS : List String := ["606034"]

/-- `AutomatedEDRPrinter.process_event_list` (lines 63-152): `None` ids fall
back to the default list; without a token it returns `{}` immediately;
otherwise the loop records one result per identifier (an exception on one
identifier is caught and recorded, the loop continues). -/
def process_event_list (tokenPresent : Bool) (outcome : String → EventOutcome)
    (event_ids : Option (List String)) (save_copies print_reports : Bool) :
    List (String × EventResult) :=
  let ids := event_ids.getD DEFAULT_EVENT_IDS
  if ¬tokenPresent then []
  else ids.foldl
    (fun res eid => dictInsert res eid (resultFor save_copies print_reports (outcome eid))) []

/-- `print_summary`: `total_events = len(results)` (line 165). -/
def summaryTotal (results : List (String × EventResult)) : Nat := results.length

/-- `print_summary`: `successful_events` (line 166). -/
def summarySuccessful (results : List (String × EventResult)) : Nat :=
  results.countP (fun p => p.2.success)

/-- `print_summary`: `failed_events = total - successful` (line 167). -/
def summaryFailed (results : List (String × EventResult)) : Nat :=
  summaryTotal results - summarySuccessful results

/-- `AutomatedEDRPrinter.run_automated_batch` (lines 197-234).
`tokenPresent`: `generator.auth_token` truthy at entry; `authOk`: result of
`authenticate_once`; `tokenAfterAuth`: whether a token is actually present
after a successful `authenticate_once` (the two can differ, see step 6).
Returns `all(r['success'] for r in results.values())`. -/
def run_automated_batch (tokenPresent authOk tokenAfterAuth : Bool)
    (outcome : String → EventOutcome) (event_ids : Option (List String))
    (doAuthenticate : Bool) : Bool :=
  if doAuthenticate && !tokenPresent then
    if !authOk then false
    else (process_event_list tokenAfterAuth outcome event_ids true true).all
      (fun p => p.2.success)
  else (process_event_list tokenPresent outcome event_ids true true).all
    (fun p => p.2.success)

/-- The `__main__` wiring shared by both drivers:
`sys.exit(0 if main() else 1)`. -/
def exitStatus (b : Bool) : Nat := if b then 0 else 1

/-- `EnhancedEDRPrinter.run_enhanced_batch` (enhanced_edr_printer.py lines
537-644).  `collected eid`: the loop body for `eid` reached
"processed successfully" (truthy data, no exception); with no effective
token every `get_edr_report` raises and nothing is collected.  `rlAvail` /
`wpAvail`: the two PDF libraries' availability; `pdfOk`: PDF generation did
not raise.  Printing and opening the PDF never affect the return value; the
final statement returns `len(event_data_list) > 0`. -/
def run_enhanced_batch (tokenPresent authOk tokenAfterAuth : Bool)
    (collected : String → Bool) (rlAvail wpAvail pdfOk : Bool)
    (event_ids : Option (List String))
    (doAuthenticate create_pdf _auto_print _open_pdf : Bool) : Bool :=
  let ids := event_ids.getD DEFAULT_EVENT_IDS
  if doAuthenticate && !tokenPresent && !authOk then false
  else
    let tokEff := if doAuthenticate && !tokenPresent then tokenAfterAuth else tokenPresent
    let dataList := if tokEff then ids.filter collected else []
    if dataList.isEmpty then false
    else if create_pdf then
      if rlAvail then
        if pdfOk then dataList.length > 0 else false
      else if wpAvail then
        if pdfOk then dataList.length > 0 else false
      else false
    else dataList.length > 0

/-- Behaviour of one underlying print command inside a mechanism: exit code
0, a non-zero exit code, or a raised exception (timeout, missing binary). -/
inductive MechBehavior where
  | ok
  | fail
  | exc
  deriving Repr, DecidableEq

/-- A whole mechanism wrapper with its own `try/except Exception` handler
(`_print_on_windows_simple` etc.): an exception inside the mechanism is
caught there and reported as `False`. -/
def runCaught : MechBehavior → Bool
  | .ok => true
  | .fail => false
  | .exc => false

/-- The Windows chain (edr_report_generator.py lines 826-830): three wrapper
methods combined with `or`; each swallows its own exceptions. -/
def windowsDispatch (m1 m2 m3 : MechBehavior) : Bool :=
  runCaught m1 || runCaught m2 || runCaught m3

/-- `_print_on_macos` (lines 949-990): `lp`, falling back to
`open -a Safari` plus an AppleScript keystroke; all three commands share one
`try`, so an exception in an earlier command aborts the later fallbacks and
the method returns `False`. -/
def macosDispatch (lp openCmd osa : MechBehavior) : Bool :=
  match lp with
  | .ok => true
  | .exc => false
  | .fail =>
    match openCmd with
    | .ok => (match osa with | .exc => false | _ => true)
    | .fail => false
    | .exc => false

/-- `_print_on_linux` (lines 992-1023): `lp`, `lpr`, `xdg-open` in one
`try`; an exception anywhere yields `False`. -/
def linuxDispatch (lp lpr xdg : MechBehavior) : Bool :=
  match lp with
  | .ok => true
  | .exc => false
  | .fail =>
    match lpr with
    | .ok => true
    | .exc => false
    | .fail =>
      match xdg with
      | .ok => true
      | .exc => false
      | .fail => false

/-- The platform branch of `print_html_report` (lines 824-837) together with
the behaviours of that platform's underlying print commands. -/
inductive PrintPlatform where
  | windows (m1 m2 m3 : MechBehavior)
  | darwin (lp openCmd osa : MechBehavior)
  | linux (lp lpr xdg : MechBehavior)
  | other (sysName : String)
  deriving Repr, DecidableEq

/-- The print dispatch of `print_html_report`: `none` models the
"Unsupported operating system" branch, which returns before any mechanism
runs. -/
def dispatchResult : PrintPlatform → Option Bool
  | .windows m1 m2 m3 => some (windowsDispatch m1 m2 m3)
  | .darwin lp o osa => some (macosDispatch lp o osa)
  | .linux a b c => some (linuxDispatch a b c)
  | .other _ => none

/-- `EDRReportGenerator.print_html_report` (lines 798-866), observed as
`(return value, does the temporary file still exist on return)`.  The temp
file is written first; on a successful dispatch the code sleeps and removes
it; on a failed dispatch it removes it in the failure branch as well; on an
unrecognized platform it returns `False` before either cleanup, leaving the
file in place.  (`os.remove` of an existing file is modelled as
succeeding.) -/
def print_html_report (env : PrintPlatform) : Bool × Bool :=
  match dispatchResult env with
  | none => (false, true)
  | some true => (true, false)
  | some false => (false, false)

/-- "Every print mechanism fails": the platform's dispatch attempted its
mechanisms and none of the underlying commands succeeded.  On an
unrecognized platform no mechanism is ever attempted, so the dispatch never
exhausts-and-fails its mechanism list there. -/
def allMechanismsFail : PrintPlatform → Bool
  | .windows m1 m2 m3 => m1 != .ok && m2 != .ok && m3 != .ok
  | .darwin lp o _ => lp != .ok && o != .ok
  | .linux a b c => a != .ok && b != .ok && c != .ok
  | .other _ => false

/-! ### The HTML renderer

`EDRReportGenerator.generate_html_report` (edr_report_generator.py lines
459-775) is one Python f-string.  It is embedded below as the concatenation
of its thirteen constant segments `htmlSeg0` … `htmlSeg12` with the twelve
interpolated values in source order (`report_date`, `report_time`,
`event_number`, `event_type`, `event_locked`, `event_status`, `event_date`,
`event_name` twice, `item_rows`, `event_prep`, `event_portion`).  The
source's trailing `.strip()` only removes the constant leading newline and
trailing blanks of the template, so it is applied statically to `htmlSeg0`
and `htmlSeg12`.  In the literals, `\x7b`/`\x7d` denote the literal braces
produced by the f-string escapes. -/

def htmlSeg0 : String :=
  "<!DOCTYPE html>\n<html>\n<head>\n    <title>Event Management System - EDR Report</title>\n    <style>\n        /* CSS from the provided files combined with print optimization */\n        body \x7b \n            font-family: Arial, sans-serif; \n            padding: 20px; \n            margin: 0;\n        \x7d\n        \n        .detail-header \x7b \n            display: flex; \n            justify-content: center; \n            align-items: center; \n            font-weight: 700;\n            font-size: 24px;\n            margin-bottom: 20px;\n        \x7d\n        \n        .elememnt-padding \x7b \n            padding: 10px 0; \n        \x7d\n        \n        .font-weight-bold \x7b \n            font-size: 18px; \n            margin-top: 10px; \n            margin-bottom: 10px; \n            font-weight: bold;\n        \x7d\n        \n        .space-underlined \x7b \n            display: inline-block; \n            width: calc(80% - 230px); \n            border-bottom: 1px solid black;\n            margin-left: 10px;\n        \x7d\n        \n        .instruction-heading \x7b \n            margin-top: 10px; \n            margin-bottom: 10px; \n            font-size: 18px; \n            font-weight: 500; \n        \x7d\n        \n        .report-footer div \x7b \n            padding: 2px 0; \n        \x7d\n        \n        .report-first \x7b \n            margin-left: 20%; \n        \x7d\n        \n        .help-text \x7b \n            font-size: 14px; \n            line-height: 1.2; \n        \x7d\n        \n        .demo-text \x7b \n            margin-left: 12px; \n            font-weight: 700; \n        \x7d\n        \n        .col-40 \x7b \n            flex: 0 0 40%; \n            max-width: 40%; \n        \x7d\n        \n        .report-table-content \x7b \n            text-align: center; \n        \x7d\n        \n        .row \x7b \n            display: flex; \n            padding: 5px; \n            width: 100%; \n        \x7d\n        \n        .col \x7b \n            flex: 1; \n            display: block; \n            padding: 5px; \n            width: 100%; \n        \x7d\n        \n        .col-25 \x7b \n            flex: 0 0 25%; \n            max-width: 25%; \n        \x7d\n        \n        .input-label \x7b \n            font-weight: normal; \n        \x7d\n        \n        td \x7b \n            padding: 8px; \n            border-top: solid 1px #ccc; \n            font-family: arial; \n            font-size: 12px; \n            text-align: left; \n            font-weight: 400; \n            color: grey; \n            line-height: 18px; \n        \x7d\n        \n        table \x7b \n            width: 100%; \n            border-collapse: collapse; \n            text-align: center; \n            font-size: 94%; \n            outline: #ccc solid 1px; \n            table-layout: fixed; \n            margin-bottom: 10px; \n        \x7d\n        \n        th \x7b \n            padding: 5px; \n            background: #e2e1e1; \n            font-size: 14px; \n            font-weight: 400; \n            color: grey; \n        \x7d\n        \n        .demo-table-header \x7b \n            background: #e2e1e1; \n        \x7d\n        \n        hr \x7b \n            border: 1px solid #ccc; \n            margin: 10px 0; \n        \x7d\n        \n        @media print \x7b\n            body \x7b \n                padding: 10px; \n            \x7d\n            .print-button \x7b \n                display: none; \n            \x7d\n        \x7d\n    </style>\n</head>\n<body>\n    <div id=\"reportDdr_pdf\">\n        <div class=\"detail-header\">EVENT DETAIL REPORT</div>\n        \n        <div class=\"elememnt-padding font-weight-bold\">\n            <span>RUN ON </span>\n            <span>"

def htmlSeg1 : String :=
  "</span>\n            <span> AT </span>\n            <span>"

def htmlSeg2 : String :=
  "</span>\n        </div>\n        \n        <hr>\n        \n        <div class=\"elememnt-padding help-text\">\n            <div>\n                <span class=\"report-first\">IMPORTANT!!!</span> \n                This report should be printed each morning prior to completing each event.<br>\n                1. The Event Details Report should be kept in the event prep area for each demonstrator to review instructions and item status.<br>\n                2. The Event Co-ordinator should use this sheet when visiting the event area. Comments should be written to enter into the system at a later time.<br>\n                3. Remember to scan items for product charge using the Club Use function on the handheld device.<br>\n                Retention: This report should be kept in a monthly folder with the most recent being put in the front. The previous 6 months need to be kept accessible in the event prep area. Reports older than 6 months should be boxed and stored. Discard any report over 18 months old.\n            </div>\n        </div>\n        \n        <hr>\n        \n        <div id=\"demo_div\">\n            <div class=\"row responsive-md\">\n                <div class=\"col col-25\">\n                    <span class=\"input-label\" title=\"Event Number\">\n                        Event Number <span class=\"demo-text\">"

def htmlSeg3 : String :=
  "</span>\n                    </span>\n                </div>\n                <div class=\"col col-25\">\n                    <span class=\"input-label\" title=\"Event Type\">\n                        Event Type <span class=\"demo-text\">"

def htmlSeg4 : String :=
  "</span>\n                    </span>\n                </div>\n                <div class=\"col col-40\">\n                    <span class=\"input-label\" title=\"Event Locked\">\n                        Event Locked <span class=\"demo-text\">"

def htmlSeg5 : String :=
  "</span>\n                    </span>\n                </div>\n            </div>\n            \n            <div class=\"row responsive-md\">\n                <div class=\"col col-25\">\n                    <span class=\"input-label\" title=\"Event Status\">\n                        Event Status <span class=\"demo-text\">"

def htmlSeg6 : String :=
  "</span>\n                    </span>\n                </div>\n                <div class=\"col col-25\">\n                    <span class=\"input-label\" title=\"Event Date\">\n                        Event Date <span class=\"demo-text\">"

def htmlSeg7 : String :=
  "</span>\n                    </span>\n                </div>\n                <div class=\"col col-40\">\n                    <span class=\"input-label\" title=\"Event Name\">\n                        Event Name <span class=\"demo-text\" title=\""

def htmlSeg8 : String :=
  "\">"

def htmlSeg9 : String :=
  "</span>\n                    </span>\n                </div>\n            </div>\n        </div>\n        \n        <div id=\"demo_pdf\">\n            <table id=\"new_event\">\n                <thead>\n                    <tr class=\"demo-table-header\">\n                        <th>Item Number</th>\n                        <th>Primary Item Number</th>\n                        <th>Description</th>\n                        <th>Vendor</th>\n                        <th>Category</th>\n                    </tr>\n                </thead>\n                <tbody>\n                    "

def htmlSeg10 : String :=
  "\n                </tbody>\n            </table>\n        </div>\n        \n        <h4 class=\"instruction-heading\">Instructions:</h4>\n        \n        <div>\n            <span class=\"input-label\" title=\"Event Preparation\">\n                Event Preparation: <span class=\"demo-text\">"

def htmlSeg11 : String :=
  "</span>\n            </span>\n            <div>\n                <span class=\"input-label\" title=\"Event Portion\">\n                    Event Portion: <span class=\"demo-text\">"

def htmlSeg12 : String :=
  "</span>\n                </span>\n            </div>\n        </div>\n        \n        <div class=\"report-footer\">\n            <div>\n                <span>Club Associate Printed Name:</span>\n                <span class=\"space-underlined\"></span>\n            </div>\n            <div>\n                <span>Club Associate Signature:</span>\n                <span class=\"space-underlined\"></span>\n            </div>\n            <div>\n                <span>Club Associate Title:</span>\n                <span class=\"space-underlined\"></span>\n            </div>\n            <div>\n                <span>Date:</span>\n                <span class=\"space-underlined\"></span>\n            </div>\n            <div>\n                <span>Tastes & Tips Rep Signature:</span>\n                <span class=\"space-underlined\"></span>\n            </div>\n        </div>\n        \n        <div class=\"print-button\" style=\"margin-top: 20px; text-align: right;\">\n            <button onclick=\"window.print()\" style=\"padding: 10px 20px; background: #1976d2; color: white; border: none; border-radius: 4px; cursor: pointer;\">\n                🖨️ Print Report\n            </button>\n        </div>\n    </div>\n</body>\n</html>"

/-- The constant pieces of the per-item row f-string
(edr_report_generator.py lines 493-501), around the five interpolated
`item.get(field, '')` values. -/
def rowSeg0 : String :=
  "\n                <tr class=\"edr-wrapper\">\n                    <td class=\"report-table-content\">"

def rowSeg1 : String :=
  "</td>\n                    <td class=\"report-table-content\">"

def rowSeg2 : String :=
  "</td>\n                    <td class=\"report-table-content\">"

def rowSeg3 : String :=
  "</td>\n                    <td class=\"report-table-content\">"

def rowSeg4 : String :=
  "</td>\n                    <td class=\"report-table-content\">"

def rowSeg5 : String :=
  "</td>\n                </tr>\n            "

/-- Local `event_number` of `generate_html_report` (line 475):
`edr_data.get('demoId', 'N/A')`. -/
def event_number_field (d : EdrData) : String := d.demoId.getD "N/A"

/-- Local `event_type` (line 476): the RAW `demoClassCode`, not passed
through any lookup table. -/
def event_type_field (d : EdrData) : String := d.demoClassCode.getD "N/A"

/-- Local `event_status` (line 477): the raw `demoStatusCode`. -/
def event_status_field (d : EdrData) : String := d.demoStatusCode.getD "N/A"

/-- Local `event_date` (line 478). -/
def event_date_field (d : EdrData) : String := d.demoDate.getD "N/A"

/-- Local `event_name` (line 479). -/
def event_name_field (d : EdrData) : String := d.demoName.getD "N/A"

/-- Local `event_locked` (line 480). -/
def event_locked_field (d : EdrData) : String := d.demoLockInd.getD "N/A"

/-- Local `event_prep` (lines 483-484): a missing or falsy
`demoInstructions` dict and a missing `demoPrepnTxt` key both yield
"N/A". -/
def event_prep_field (d : EdrData) : String :=
  (d.demoInstructions.bind DemoInstructions.demoPrepnTxt).getD "N/A"

/-- Local `event_portion` (line 485). -/
def event_portion_field (d : EdrData) : String :=
  (d.demoInstructions.bind DemoInstructions.demoPortnTxt).getD "N/A"

/-- One iteration of the item loop (lines 492-501): the row appended for a
single `itemDetails` entry; absent fields render as the empty string via
`item.get(field, '')`. -/
def itemRowHtml (it : ItemRecord) : String :=
  rowSeg0 ++ it.itemNbr.getD "" ++ rowSeg1 ++ it.gtin.getD "" ++ rowSeg2 ++
  it.itemDesc.getD "" ++ rowSeg3 ++ it.vendorNbr.getD "" ++ rowSeg4 ++
  it.deptNbr.getD "" ++ rowSeg5

/-- The `item_rows` accumulator (lines 491-501): starts empty and appends
one row per `itemDetails` entry, in input order. -/
def item_rows (items : List ItemRecord) : String :=
  items.foldl (fun acc it => acc ++ itemRowHtml it) ""

/-- Everything of the template strictly after the `{item_rows}` hole. -/
def htmlAfterRows (d : EdrData) : String :=
  htmlSeg10 ++ event_prep_field d ++ htmlSeg11 ++ event_portion_field d ++ htmlSeg12

/-- The template from just after the `{report_time}` hole up to the
`{item_rows}` hole. -/
def htmlBeforeRows (d : EdrData) : String :=
  htmlSeg2 ++ event_number_field d ++ htmlSeg3 ++ event_type_field d ++ htmlSeg4 ++
  event_locked_field d ++ htmlSeg5 ++ event_status_field d ++ htmlSeg6 ++
  event_date_field d ++ htmlSeg7 ++ event_name_field d ++ htmlSeg8 ++
  event_name_field d ++ htmlSeg9

/-- The template strictly after the `{report_time}` hole (grouped so that
the item-rows block is isolated). -/
def htmlAfterTime (d : EdrData) : String :=
  htmlBeforeRows d ++ (item_rows d.itemDetails ++ htmlAfterRows d)

/-- `EDRReportGenerator.generate_html_report` (lines 459-775): the full
f-string with the current time's two `strftime` projections stamped after
"RUN ON" / "AT" in the header, the six event fields, the item rows and the
two instruction texts interpolated; `.strip()` is pre-applied to the
constant outer segments (see above). -/
def generate_html_report (d : EdrData) (now : Clock) : String :=
  htmlSeg0 ++ now.dateStr ++ htmlSeg1 ++ now.timeStr ++ htmlAfterTime d

/-- Does the character list `s` start with `pat`? (helper for substring
queries about rendered documents). -/
def charsStartWith : List Char → List Char → Bool
  | _, [] => true
  | [], _ :: _ => false
  | a :: as, b :: bs => a == b && charsStartWith as bs

/-- Does the character list `s` contain `pat` as a contiguous run? -/
def charsContain : List Char → List Char → Bool
  | [], pat => pat.isEmpty
  | s :: rest, pat => charsStartWith (s :: rest) pat || charsContain rest pat

/-- Substring test on strings, used to state what a rendered artifact does
and does not display. -/
def containsSubstr (s pat : String) : Bool := charsContain s.data pat.data

/-! ### The consolidated-PDF renderer

`EnhancedEDRPrinter.generate_consolidated_pdf_reportlab`
(enhanced_edr_printer.py lines 132-376) builds a ReportLab `story` list and
hands it to `doc.build`.  The story is the document's content; paragraph
styles, spacer dimensions, column widths and `TableStyle`s are page-layout
configuration and are not part of the embedded content (styles are kept as
their source names on paragraphs). -/

/-- A ReportLab flowable as the source uses them: paragraphs (text and
style name), spacers, tables (their cell data) and page breaks. -/
inductive Flowable where
  | para (text style : String)
  | spacer (w h : Nat)
  | table (rows : List (List String))
  | pageBreak
  deriving Repr, DecidableEq

/-- `str(event_name)[:30] + '...' if len(str(event_name)) > 30` (line
216). -/
def pyTruncate30 (s : String) : String :=
  if s.length > 30 then String.mk (s.data.take 30) ++ "..." else s

/-- One data row of the cover-page summary table (lines 205-223): id,
truncated name, and the code-to-description mapped type and status. -/
def summaryRow (d : EdrData) : List String :=
  [d.demoId.getD "N/A",
   pyTruncate30 (d.demoName.getD "N/A"),
   get_event_type_description (d.demoClassCode.getD "N/A"),
   get_event_status_description (d.demoStatusCode.getD "N/A")]

/-- The cover page (lines 194-238): title, generation stamp, total count,
the summary table when the list is non-empty, and a page break. -/
def coverBlock (eventDataList : List EdrData) (now : Clock) : List Flowable :=
  [Flowable.para "CONSOLIDATED EVENT DETAILS REPORT" "CoverTitle",
   Flowable.spacer 1 50,
   Flowable.para ("Generated on " ++ now.dateStr ++ " at " ++ now.timeStr) "CustomHeader",
   Flowable.spacer 1 30,
   Flowable.para ("Total Events: " ++ toString eventDataList.length) "CustomHeader",
   Flowable.spacer 1 30] ++
  (if eventDataList.isEmpty then []
   else [Flowable.table
     (["Event ID", "Event Name", "Event Type", "Status"] :: eventDataList.map summaryRow)]) ++
  [Flowable.pageBreak]

/-- `important_text` (lines 269-275), verbatim. -/
def important_text : String :=
  "\n            <b>IMPORTANT!!!</b> This report should be printed each morning prior to completing each event.<br/>\n            1. The Event Details Report should be kept in the event prep area for each demonstrator to review instructions and item status.<br/>\n            2. The Event Co-ordinator should use this sheet when visiting the event area. Comments should be written to enter into the system at a later time.<br/>\n            3. Remember to scan items for product charge using the Club Use function on the handheld device.<br/>\n            Retention: This report should be kept in a monthly folder with the most recent being put in the front. The previous 6 months need to be kept accessible in the event prep area. Reports older than 6 months should be boxed and stored. Discard any report over 18 months old.\n            "

/-- `signature_data` (lines 355-360). -/
def signature_data : List (List String) :=
  [["Event Specialist Printed Name:", "________________________________"],
   ["Event Specialist Signature:", "________________________________"],
   ["Date Performed:", "________________________________"],
   ["Supervisor Signature:", "________________________________"]]

/-- The items table of one event page (lines 326-334): header row plus one
row per `itemDetails` entry, absent fields as empty strings. -/
def itemsTableData (items : List ItemRecord) : List (List String) :=
  ["Item Number", "Primary Item Number", "Description", "Vendor", "Category"] ::
  items.map (fun it =>
    [it.itemNbr.getD "", it.gtin.getD "", it.itemDesc.getD "",
     it.vendorNbr.getD "", it.deptNbr.getD ""])

/-- One per-event page of the story (lines 240-371): page break between
events, title, notice, the two header tables — whose second rows carry the
MAPPED type and status descriptions — the items table when non-empty, and
the signature block.  (`event_prep`/`event_portion` are computed by the
source at lines 257-259 but never appended to the story.) -/
def eventBlock (i : Nat) (d : EdrData) : List Flowable :=
  (if i > 0 then [Flowable.pageBreak] else []) ++
  [Flowable.para "EVENT DETAIL REPORT" "CustomTitle",
   Flowable.spacer 1 12,
   Flowable.para important_text "Normal",
   Flowable.spacer 1 20,
   Flowable.table
     [["Event Number", "Event Type", "Event Locked"],
      [d.demoId.getD "N/A",
       get_event_type_description (d.demoClassCode.getD "N/A"),
       d.demoLockInd.getD "N/A"]],
   Flowable.spacer 1 3,
   Flowable.table
     [["Event Status", "Event Date", "Event Name"],
      [get_event_status_description (d.demoStatusCode.getD "N/A"),
       d.demoDate.getD "N/A",
       d.demoName.getD "N/A"]],
   Flowable.spacer 1 20] ++
  (if d.itemDetails.isEmpty then []
   else [Flowable.table (itemsTableData d.itemDetails), Flowable.spacer 1 20]) ++
  [Flowable.para "<b>MUST BE SIGNED AND DATED</b>" "CustomHeader",
   Flowable.spacer 1 20,
   Flowable.table signature_data]

/-- The full story handed to `doc.build` by
`generate_consolidated_pdf_reportlab`: cover page followed by the per-event
pages in order. -/
def consolidatedPdfStory (eventDataList : List EdrData) (now : Clock) : List Flowable :=
  coverBlock eventDataList now ++
  (eventDataList.enum.flatMap fun p => eventBlock p.1 p.2)

/-- The table contents of a story, in order (paragraphs, spacers and page
breaks dropped). -/
def storyTables (s : List Flowable) : List (List (List String)) :=
  s.filterMap fun f =>
    match f with
    | .table r => some r
    | _ => none

/-- The item record of the specification's end-to-end scenario: `itemNbr`
"12345"; the remaining fields are unconstrained there and chosen
arbitrarily. -/
def c3Item : ItemRecord :=
  { itemNbr := some "12345"
    gtin := some "00012345678905"
    itemDesc := some "SAMPLE ITEM"
    vendorNbr := some "123"
    deptNbr := some "92" }

/-- The EventRecord of the specification's end-to-end scenario:
`demoId` "606034", `demoClassCode` "45", `demoStatusCode` "2", one
item-detail entry with `itemNbr` "12345". -/
def c3Event : EdrData :=
  { demoId := some "606034"
    demoClassCode := some "45"
    demoStatusCode := some "2"
    demoDate := none
    demoName := none
    demoLockInd := none
    demoInstructions := none
    itemDetails := [c3Item] }

/-- An authentication environment in which steps 1-5 succeed and the step-6
response is a 200 whose body is NOT JSON, with an empty cookie jar. -/
def c1Env : AuthEnv :=
  { step1 := true, step2 := true, step3 := true, step4 := true, step5 := true,
    s6 := { netError := false, status := 200, bodyJson := false, cookies := [] } }

/-- An authentication environment of a fully well-behaved portal: steps 1-5
succeed, step 6 gets a JSON 200 and a parsable `auth-token` cookie carrying
the token "tok123". -/
def c1WitnessEnv : AuthEnv :=
  { step1 := true, step2 := true, step3 := true, step4 := true, step5 := true,
    s6 := { netError := false, status := 200, bodyJson := true,
            cookies := [{ name := "auth-token", value := "x", parsed := some ⟨some "tok123"⟩ }] } }

/-- A concrete per-identifier outcome map: "222" fails, everything else
succeeds. -/
def c7WitnessOutcome : String → EventOutcome :=
  fun eid => if eid == "222" then .fail else .ok

/-- A concrete collection oracle for the enhanced batch: only "606034"
yields report data. -/
def c2Collected : String → Bool := fun eid => eid == "606034"

/-- A minimal EventRecord (every JSON key absent). -/
def c8WitnessEvent : EdrData :=
  { demoId := none, demoClassCode := none, demoStatusCode := none, demoDate := none,
    demoName := none, demoLockInd := none, demoInstructions := none, itemDetails := [] }

/-! ### Helper lemmas -/

/-- In the `print_reports=True` branch every status flag mirrors the
workflow boolean, so the recorded `success` is exactly "the outcome was
`ok`". -/
lemma success_resultFor (o : EventOutcome) :
    (resultFor true true o).success = (o == .ok) := by
  cases o <;> rfl

/-- Inserting a key not yet present appends the pair. -/
lemma dictInsert_fresh (acc : List (String × EventResult)) (a : String) (v : EventResult)
    (h : ∀ p ∈ acc, p.1 ≠ a) : dictInsert acc a v = acc ++ [(a, v)] := by
  unfold dictInsert
  rw [if_neg]
  intro hany
  obtain ⟨p, hp, hpa⟩ := List.any_eq_true.mp hany
  exact h p hp (by simpa using hpa)

/-- "All recorded results are successes" distributes over the batch fold:
as long as every accumulated entry already equals the record its key would
get, the fold's conjunction equals the accumulator's conjunction and the
per-identifier conjunction (duplicated identifiers collapse onto the same
record, so no restriction to duplicate-free lists is needed). -/
lemma all_success_foldl (g : String → EventResult) (ids : List String) :
    ∀ acc : List (String × EventResult), (∀ p ∈ acc, p.2 = g p.1) →
    ((ids.foldl (fun res eid => dictInsert res eid (g eid)) acc).all fun p => p.2.success)
      = (acc.all (fun p => p.2.success) && ids.all fun eid => (g eid).success) := by
  induction ids with
  | nil => intro acc _; simp
  | cons a l ih =>
    intro acc hacc
    simp only [List.foldl_cons]
    by_cases hmem : acc.any (fun p => p.1 == a) = true
    · have hins : dictInsert acc a (g a) = acc := by
        unfold dictInsert
        rw [if_pos hmem]
        rw [List.map_congr_left, List.map_id]
        intro p hp
        by_cases hpa : p.1 == a
        · simp only [hpa, if_pos]
          have h1 : p.1 = a := by simpa using hpa
          have h2 : p.2 = g p.1 := hacc p hp
          cases p
          simp_all
        · simp [hpa]
      rw [hins, ih acc hacc]
      simp only [List.all_cons]
      cases hsa : (g a).success
      · have hfalse : acc.all (fun p => p.2.success) = false := by
          obtain ⟨p, hp, hpa⟩ := List.any_eq_true.mp hmem
          rw [List.all_eq_false]
          refine ⟨p, hp, ?_⟩
          rw [hacc p hp, (by simpa using hpa : p.1 = a), hsa]
          simp
        simp [hfalse]
      · simp
    · have hfresh : ∀ p ∈ acc, p.1 ≠ a := by
        intro p hp hpa
        exact hmem (List.any_eq_true.mpr ⟨p, hp, by simp [hpa]⟩)
      rw [dictInsert_fresh acc a (g a) hfresh, ih]
      · simp [List.all_append, Bool.and_assoc]
      · intro p hp
        rcases List.mem_append.mp hp with h | h
        · exact hacc p h
        · simp only [List.mem_singleton] at h
          subst h
          rfl

/-- Over a duplicate-free identifier list whose keys are fresh for the
accumulator, the batch fold is exactly "append one record per identifier in
input order". -/
lemma process_foldl_nodup (g : String → EventResult) (ids : List String) :
    ∀ acc : List (String × EventResult), (∀ eid ∈ ids, ∀ p ∈ acc, p.1 ≠ eid) → ids.Nodup →
    ids.foldl (fun res eid => dictInsert res eid (g eid)) acc
      = acc ++ ids.map (fun eid => (eid, g eid)) := by
  induction ids with
  | nil => intro acc _ _; simp
  | cons a l ih =>
    intro acc hfresh hnd
    simp only [List.foldl_cons]
    rw [dictInsert_fresh acc a (g a) (hfresh a (by simp))]
    rw [ih]
    · simp
    · intro eid hl p hp
      rcases List.mem_append.mp hp with h | h
      · exact hfresh eid (by simp [hl]) p h
      · simp only [List.mem_singleton] at h
        subst h
        intro hcontra
        exact (List.nodup_cons.mp hnd).1 (by rw [show a = eid from hcontra]; exact hl)
    · exact (List.nodup_cons.mp hnd).2

/-- The `item_rows` accumulator equals the join of the per-item rows. -/
lemma item_rows_join (items : List ItemRecord) :
    item_rows items = String.join (items.map itemRowHtml) := by
  unfold item_rows String.join
  rw [List.foldl_map]

/-! ### Claim theorems -/

/-- C1 (counterexample): the claim "authenticate() returning True implies a
non-empty auth token, and step 6 fails whenever the auth-token cookie is
absent or unparsable" is false on the code: with steps 1-5 succeeding and a
200 step-6 response whose body is not JSON, `authenticate` returns `True`
with `auth_token` still `None`, even though no `auth-token` cookie exists at
all. -/
theorem c1_counterexample :
    authenticate c1Env = Except.ok (true, (none : Option String))
    ∧ extractToken c1Env.s6.cookies = none :=
  ⟨rfl, rfl⟩

/-- C1 (amended): restricted to runs whose step-6 response body parses as
JSON, success of `authenticate` does imply a non-null extracted token: if
`authenticate` returns `True` with token `tok`, then `tok` is `some` string
extracted from the first parsable `auth-token` cookie; and step 6 returns
`False` whenever the cookie scan finds no parsable `auth-token` cookie
(absent or unparsable), whatever token was held before. -/
theorem c1_theorem (env : AuthEnv) (tok : Option String)
    (hjson : env.s6.bodyJson = true) :
    (authenticate env = .ok (true, tok) →
        tok.isSome = true ∧ extractToken env.s6.cookies = some ⟨tok⟩)
    ∧ (extractToken env.s6.cookies = none →
        ∀ t0 : Option String,
          step6_authenticate_event_management t0 env.s6 = .ok (false, t0)) := by
  constructor
  · intro hsucc
    unfold authenticate at hsucc
    split_ifs at hsucc <;> try simp at hsucc
    unfold step6_authenticate_event_management at hsucc
    split_ifs at hsucc with h1 h2 <;> try simp at hsucc
    rcases hext : extractToken env.s6.cookies with _ | td
    · rw [hext] at hsucc
      simp at hsucc
    · rw [hext] at hsucc
      rcases td with ⟨_ | s⟩
      · simp at hsucc
      · simp only [Except.ok.injEq, Prod.mk.injEq] at hsucc
        rw [← hsucc.2]
        exact ⟨rfl, hext ▸ rfl⟩
  · intro hnone t0
    unfold step6_authenticate_event_management
    split_ifs with h1 h2
    · rfl
    · rfl
    · rw [hnone]

/-- C1 (witness): in a well-behaved environment the amended theorem yields
the concrete extracted token "tok123". -/
theorem c1_theorem_witness :
    (some "tok123" : Option String).isSome = true
    ∧ extractToken c1WitnessEnv.s6.cookies = some ⟨some "tok123"⟩ :=
  (c1_theorem c1WitnessEnv (some "tok123") rfl).1 rfl

/-- C2 (counterexample): the claim "exit status is 0 iff every processed
identifier succeeded" is false for the enhanced batch entry point: with a
token present, ReportLab available and PDF generation succeeding, a run over
["606034", "607000"] in which "607000" yields no data still returns success,
so the process exits 0 despite a failed identifier. -/
theorem c2_counterexample :
    exitStatus (run_enhanced_batch true true true c2Collected true false true
      (some ["606034", "607000"]) true true true true) = 0
    ∧ c2Collected "607000" = false :=
  ⟨by decide, rfl⟩

/-- C2 (amended): with a credential present, the automated batch
(`automated_edr_printer`) exits 0 exactly when every processed identifier
succeeded, whereas the enhanced batch (`enhanced_edr_printer`, with
ReportLab available and PDF generation succeeding) exits 0 exactly when at
least one identifier yielded report data — i.e. exits 1 only when the
collected list is empty. -/
theorem c2_theorem :
    (∀ (outcome : String → EventOutcome) (ids : List String),
      exitStatus (run_automated_batch true true true outcome (some ids) true)
        = if (ids.all fun eid => (outcome eid == .ok)) then 0 else 1)
    ∧ (∀ (collected : String → Bool) (ids : List String),
      exitStatus (run_enhanced_batch true true true collected true false true
          (some ids) true true true true)
        = if (ids.filter collected).isEmpty then 1 else 0) := by
  constructor
  · intro outcome ids
    unfold run_automated_batch process_event_list
    simp only [Bool.and_self, Bool.not_true, Bool.and_false, Bool.false_eq_true, if_false,
      Option.getD_some, not_true, if_neg, if_false]
    rw [all_success_foldl _ ids [] (by intro p hp; cases hp)]
    have : (fun eid => (resultFor true true (outcome eid)).success)
        = (fun eid => outcome eid == .ok) := funext fun eid => success_resultFor _
    rw [List.all_nil, Bool.true_and, this]
    rfl
  · intro collected ids
    unfold run_enhanced_batch
    by_cases he : (ids.filter collected).isEmpty
    · simp [he, exitStatus]
    · have hlen : 0 < (ids.filter collected).length := by
        rw [List.length_pos]
        intro hnil
        exact he (by rw [hnil]; rfl)
      simp [he, exitStatus, hlen]

/-- C3 (counterexample): the claim that the rendered artifact's header
displays the MAPPED labels fails for the HTML renderer, one of the two
renderers the scenario covers: for the scenario's EventRecord the HTML
header block contains the raw codes "45" and "2" in the Event Type / Event
Status slots and contains neither "Food Demo/Sampling" nor
"Active/Scheduled" anywhere; the header block embeds verbatim into the full
rendered document. -/
theorem c3_counterexample :
    containsSubstr (htmlBeforeRows c3Event) "Food Demo/Sampling" = false
    ∧ containsSubstr (htmlBeforeRows c3Event) "Active/Scheduled" = false
    ∧ containsSubstr (htmlBeforeRows c3Event) "Event Type <span class=\"demo-text\">45</span>" = true
    ∧ containsSubstr (htmlBeforeRows c3Event) "Event Status <span class=\"demo-text\">2</span>" = true
    ∧ (∀ cl : Clock, ∃ A B : String,
        generate_html_report c3Event cl = A ++ htmlBeforeRows c3Event ++ B) := by
  refine ⟨by decide, by decide, by decide, by decide, ?_⟩
  intro cl
  exact ⟨htmlSeg0 ++ cl.dateStr ++ htmlSeg1 ++ cl.timeStr,
    item_rows c3Event.itemDetails ++ htmlAfterRows c3Event,
    by simp [generate_html_report, htmlAfterTime, String.append_assoc]⟩

/-- C3 (amended): for the scenario's EventRecord, the CONSOLIDATED-PDF
renderer's tables display "Food Demo/Sampling" and "Active/Scheduled" in its
header tables (cover summary and per-event header rows), and its item table
has exactly one body row, whose item number is "12345"; the HTML renderer's
item table likewise has exactly one row carrying "12345", while its header
shows the raw codes (see the counterexample). -/
theorem c3_theorem (cl : Clock) :
    storyTables (consolidatedPdfStory [c3Event] cl) =
      [[["Event ID", "Event Name", "Event Type", "Status"],
        ["606034", "N/A", "Food Demo/Sampling", "Active/Scheduled"]],
       [["Event Number", "Event Type", "Event Locked"],
        ["606034", "Food Demo/Sampling", "N/A"]],
       [["Event Status", "Event Date", "Event Name"],
        ["Active/Scheduled", "N/A", "N/A"]],
       [["Item Number", "Primary Item Number", "Description", "Vendor", "Category"],
        ["12345", "00012345678905", "SAMPLE ITEM", "123", "92"]],
       signature_data]
    ∧ item_rows [c3Item] = itemRowHtml c3Item
    ∧ containsSubstr (itemRowHtml c3Item) "12345" = true :=
  ⟨rfl, rfl, by decide⟩

/-- C4: whenever the print dispatch attempts its platform's mechanisms and
every underlying print command fails — whether by a non-zero exit code or by
raising an exception, which each mechanism wrapper catches and converts to
failure — `print_html_report` returns `False` AND the temporary artifact
file no longer exists on disk. -/
theorem c4_theorem (env : PrintPlatform) (hfail : allMechanismsFail env = true) :
    print_html_report env = (false, false) := by
  cases env with
  | windows m1 m2 m3 =>
    cases m1 <;> cases m2 <;> cases m3 <;>
      simp_all [allMechanismsFail, print_html_report, dispatchResult, windowsDispatch, runCaught]
  | darwin lp o osa =>
    cases lp <;> cases o <;> cases osa <;>
      simp_all [allMechanismsFail, print_html_report, dispatchResult, macosDispatch]
  | linux a b c =>
    cases a <;> cases b <;> cases c <;>
      simp_all [allMechanismsFail, print_html_report, dispatchResult, linuxDispatch]
  | other s => simp [allMechanismsFail] at hfail

/-- C4 (witness): on Windows with the first mechanism raising and the other
two failing, the call returns `False` with the temp file removed. -/
theorem c4_theorem_witness :
    print_html_report (PrintPlatform.windows .exc .fail .fail) = (false, false) :=
  c4_theorem (PrintPlatform.windows .exc .fail .fail) (by decide)

/-- C5 (counterexample): the claim "every code not in the table maps to the
'<Category> code' fallback" is false: "samp" is not a key of
`event_type_codes`, yet the lookup uppercases the input first and returns
"Sampling" instead of "Event Type samp". -/
theorem c5_counterexample :
    (event_type_codes.all fun p => p.1 != "samp") = true
    ∧ get_event_type_description "samp" = "Sampling"
    ∧ "Sampling" ≠ "Event Type samp" :=
  ⟨by decide, by decide, by decide⟩

/-- C5 (amended): every key of either static table maps to its documented
label; the sentinel "N/A" (and the falsy empty string) map to "N/A"; and
every non-empty, non-"N/A" code whose UPPERCASED form is not a table key
falls back to "Event Type <code>" / "Status <code>" with the original code
verbatim. -/
theorem c5_theorem :
    (∀ p ∈ event_type_codes, get_event_type_description p.1 = p.2)
    ∧ (∀ p ∈ event_status_codes, get_event_status_description p.1 = p.2)
    ∧ get_event_type_description "N/A" = "N/A"
    ∧ get_event_status_description "N/A" = "N/A"
    ∧ get_event_type_description "" = "N/A"
    ∧ get_event_status_description "" = "N/A"
    ∧ (∀ c : String, c ≠ "" → c ≠ "N/A" →
        pyDictGet event_type_codes (pyUpper c) = none →
        get_event_type_description c = "Event Type " ++ c)
    ∧ (∀ c : String, c ≠ "" → c ≠ "N/A" →
        pyDictGet event_status_codes (pyUpper c) = none →
        get_event_status_description c = "Status " ++ c) := by
  refine ⟨by decide, by decide, by decide, by decide, by decide, by decide, ?_, ?_⟩
  · intro c h1 h2 h3
    unfold get_event_type_description
    rw [if_neg (by rintro (h | h) <;> [exact h1 h; exact h2 h])]
    rw [h3]
  · intro c h1 h2 h3
    unfold get_event_status_description
    rw [if_neg (by rintro (h | h) <;> [exact h1 h; exact h2 h])]
    rw [h3]

/-- C5 (witness): the unmapped code "777" falls back in both tables. -/
theorem c5_theorem_witness :
    get_event_type_description "777" = "Event Type 777"
    ∧ get_event_status_description "777" = "Status 777" :=
  ⟨c5_theorem.2.2.2.2.2.2.1 "777" (by decide) (by decide) (by decide),
    c5_theorem.2.2.2.2.2.2.2 "777" (by decide) (by decide) (by decide)⟩

/-- C6: fetching with no credential present (token `None` or the falsy
empty string) fails with the not-authenticated `ValueError` — not a
retrieval error — and issues zero network calls, whatever the network would
have answered. -/
theorem c6_theorem (tok : Option String) (net : NetBehavior)
    (habsent : tok = none ∨ tok = some "") :
    get_edr_report tok net =
      (Except.error (PyExc.valueError "Must authenticate first before getting EDR report"), 0) := by
  rcases habsent with h | h <;> subst h <;> rfl

/-- C6 (witness): with token `None`, even a network that would error is
never consulted. -/
theorem c6_theorem_witness :
    get_edr_report none NetBehavior.requestError =
      (Except.error (PyExc.valueError "Must authenticate first before getting EDR report"), 0) :=
  c6_theorem none NetBehavior.requestError (Or.inl rfl)

/-- C7 (counterexample): the claim "batch processing never loses an
identifier: N inputs with M failures report N-M successes and M failures"
is false for duplicated identifiers: processing ["606034", "606034"] (N=2,
M=0) collapses both onto one dict key, so the summary reports 1 total and 1
success instead of 2. -/
theorem c7_counterexample :
    (["606034", "606034"] : List String).length = 2
    ∧ summaryTotal (process_event_list true (fun _ => .ok) (some ["606034", "606034"]) true true) = 1
    ∧ summarySuccessful (process_event_list true (fun _ => .ok) (some ["606034", "606034"]) true true) = 1 := by
  refine ⟨rfl, by decide, by decide⟩

/-- C7 (amended): for a pairwise-distinct list of N identifiers processed
with a credential present, the result record holds exactly one entry per
input identifier, in input order (so no identifier is lost or duplicated,
and a failing identifier never aborts the rest), and the summary reports
exactly N-M successes and M failures when M identifiers fail. -/
theorem c7_theorem (ids : List String) (outcome : String → EventOutcome) (hnd : ids.Nodup) :
    process_event_list true outcome (some ids) true true
        = ids.map (fun eid => (eid, resultFor true true (outcome eid)))
    ∧ (process_event_list true outcome (some ids) true true).map Prod.fst = ids
    ∧ summaryTotal (process_event_list true outcome (some ids) true true) = ids.length
    ∧ summarySuccessful (process_event_list true outcome (some ids) true true)
        = (ids.filter fun eid => outcome eid == .ok).length
    ∧ summaryFailed (process_event_list true outcome (some ids) true true)
        = (ids.filter fun eid => outcome eid != .ok).length := by
  have hmain : process_event_list true outcome (some ids) true true
      = ids.map (fun eid => (eid, resultFor true true (outcome eid))) := by
    unfold process_event_list
    simp only [Option.getD_some, not_true, if_neg, if_false]
    rw [process_foldl_nodup _ ids [] (by intro _ _ p hp; cases hp) hnd]
    simp
  refine ⟨hmain, ?_, ?_, ?_, ?_⟩
  · rw [hmain]
    rw [List.map_map]
    rw [show (Prod.fst ∘ fun eid => (eid, resultFor true true (outcome eid))) = (id : String → String) from rfl]
    exact List.map_id ids
  · rw [hmain]; simp [summaryTotal]
  · rw [hmain]
    unfold summarySuccessful
    rw [List.countP_map]
    rw [← List.countP_eq_length_filter]
    congr 1
    funext eid
    simp [Function.comp, success_resultFor]
  · rw [hmain]
    unfold summaryFailed summaryTotal summarySuccessful
    rw [List.countP_map, List.length_map, ← List.countP_eq_length_filter]
    have hsplit : ids.length = List.countP (fun eid => outcome eid == .ok) ids
        + List.countP (fun eid => !(outcome eid == .ok)) ids := by
      simpa using List.length_eq_countP_add_countP (fun eid => outcome eid == .ok) ids
    have hcongr : (List.countP ((fun p => p.2.success) ∘ fun eid => (eid, resultFor true true (outcome eid))) ids)
        = List.countP (fun eid => outcome eid == .ok) ids := by
      congr 1
      funext eid
      simp [Function.comp, success_resultFor]
    rw [hcongr]
    simp only [bne]
    omega

/-- C7 (witness): three distinct identifiers of which exactly "222" fails
report 2 successes and 1 failure. -/
theorem c7_theorem_witness :
    summarySuccessful (process_event_list true c7WitnessOutcome (some ["111", "222", "333"]) true true)
        = (["111", "222", "333"].filter fun eid => c7WitnessOutcome eid == .ok).length
    ∧ summaryFailed (process_event_list true c7WitnessOutcome (some ["111", "222", "333"]) true true)
        = (["111", "222", "333"].filter fun eid => c7WitnessOutcome eid != .ok).length
    ∧ (["111", "222", "333"].filter fun eid => c7WitnessOutcome eid == .ok).length = 2 := by
  have h := c7_theorem ["111", "222", "333"] c7WitnessOutcome (by decide)
  exact ⟨h.2.2.2.1, h.2.2.2.2, by decide⟩

/-- C8: the markup renderer is deterministic — two renderings of the same
EventRecord under a frozen clock are byte-identical — and for a fixed
EventRecord the rendered document decomposes as constant-for-that-record
segments around the stamped date and time, so the generation timestamp is
the only point where the clock enters the output. -/
theorem c8_theorem (d : EdrData) :
    (∀ cl cl' : Clock, cl.dateStr = cl'.dateStr → cl.timeStr = cl'.timeStr →
        generate_html_report d cl = generate_html_report d cl')
    ∧ ∃ a b c : String, ∀ cl : Clock,
        generate_html_report d cl = a ++ cl.dateStr ++ b ++ cl.timeStr ++ c := by
  constructor
  · intro cl cl' h1 h2
    cases cl
    cases cl'
    simp_all
  · exact ⟨htmlSeg0, htmlSeg1, htmlAfterTime d, fun _ => rfl⟩

/-- C8 (witness): a concrete frozen-clock double rendering is
byte-identical. -/
theorem c8_theorem_witness :
    generate_html_report c8WitnessEvent ⟨"2025-07-22", "08:00:00"⟩
      = generate_html_report c8WitnessEvent ⟨"2025-07-22", "08:00:00"⟩ :=
  (c8_theorem c8WitnessEvent).1 ⟨"2025-07-22", "08:00:00"⟩ ⟨"2025-07-22", "08:00:00"⟩ rfl rfl

/-- C9: a batch run that processes zero events reports overall success:
with a token present, `run_automated_batch` over the empty identifier list
returns `True`; with authentication skipped and no credential,
`process_event_list` returns the empty record and the batch still returns
`True`; the exit status for `True` is 0. -/
theorem c9_theorem :
    run_automated_batch true true true (fun _ => .ok) (some []) true = true
    ∧ run_automated_batch false false false (fun _ => .fail) (some ["606034"]) false = true
    ∧ process_event_list false (fun _ => .fail) (some ["606034"]) true true = []
    ∧ exitStatus true = 0 := by
  refine ⟨by decide, by decide, by decide, rfl⟩

/-- C10: the HTML item table renders exactly one row per `itemDetails`
entry: `item_rows` is the in-order join of the per-item rows (so row i
corresponds to input item i), the empty list yields zero body rows, an item
with every field missing renders all five cells as empty strings, and the
row block embeds verbatim between the table's `<tbody>` tags of the full
rendered document. -/
theorem c10_theorem (items : List ItemRecord) (d : EdrData) (cl : Clock) :
    item_rows items = String.join (items.map itemRowHtml)
    ∧ (items.map itemRowHtml).length = items.length
    ∧ (∀ i : Nat, (items.map itemRowHtml)[i]? = (items[i]?).map itemRowHtml)
    ∧ item_rows [] = ""
    ∧ itemRowHtml { itemNbr := none, gtin := none, itemDesc := none, vendorNbr := none, deptNbr := none }
        = "\n                <tr class=\"edr-wrapper\">\n                    <td class=\"report-table-content\"></td>\n                    <td class=\"report-table-content\"></td>\n                    <td class=\"report-table-content\"></td>\n                    <td class=\"report-table-content\"></td>\n                    <td class=\"report-table-content\"></td>\n                </tr>\n            "
    ∧ ∃ A B : String, generate_html_report d cl = A ++ item_rows d.itemDetails ++ B := by
  refine ⟨item_rows_join items, by simp, ?_, rfl, by decide, ?_⟩
  · intro i
    simp
  · exact ⟨htmlSeg0 ++ cl.dateStr ++ htmlSeg1 ++ cl.timeStr ++ htmlBeforeRows d,
      htmlAfterRows d,
      by simp [generate_html_report, htmlAfterTime, String.append_assoc]⟩

end EdrPrinter
